import Mathlib

/-!
Shallow embedding of the core of `saleor/checkout/fetch.py` (checkout-context
resolver) and of the Stripe gateway transaction orchestrator whose behaviour is
fixed by `saleor/payment/gateways/stripe/tests/test_plugin.py` and the design
spec.  Django model rows are plain structures; ORM queries and plugin-manager
calls are explicit collaborator parameters; Python `None` is `Option`.
-/

namespace Saleor

/-! ## Checkout data model (shapes consumed by `fetch.py`) -/

/-- A country on an address: `none` models a Django `Country` that is falsy
(`not address.country`), `some code` a set country with its ISO code. -/
abbrev CountryCode := String

structure Address where
  country : Option CountryCode
deriving DecidableEq, Repr

structure User where
  email : String
deriving DecidableEq, Repr

structure Channel where
  id : Nat
deriving DecidableEq, Repr

structure ShippingMethod where
  id : Nat
deriving DecidableEq, Repr

structure ShippingMethodChannelListing where
  shipping_method_id : Nat
  channel_id : Nat
  price : Rat
deriving DecidableEq, Repr

inductive WarehouseClickAndCollectOption where
  | disabled
  | localStock
  | allWarehouses
deriving DecidableEq, Repr

structure Warehouse where
  pk : Nat
  click_and_collect_option : WarehouseClickAndCollectOption
  address : Address
deriving DecidableEq, Repr

structure ProductVariantChannelListing where
  channel_id : Nat
  price : Rat
deriving DecidableEq, Repr

structure ProductType where
  id : Nat
deriving DecidableEq, Repr

structure Collection where
  id : Nat
deriving DecidableEq, Repr

structure Product where
  id : Nat
  product_type : ProductType
  collections : List Collection
deriving DecidableEq, Repr

structure ProductVariant where
  id : Nat
  product : Product
  channel_listings : List ProductVariantChannelListing
deriving DecidableEq, Repr

structure CheckoutLine where
  id : Nat
  variant : ProductVariant
deriving DecidableEq, Repr

/-- The checkout row with the fields `fetch.py` reads.  `country` is the code of
`checkout.country` (always set on the model), `email` the guest email. -/
structure Checkout where
  lines : List CheckoutLine
  channel_id : Nat
  channel : Channel
  billing_address : Option Address
  shipping_address : Option Address
  shipping_method : Option ShippingMethod
  collection_point : Option Warehouse
  user : Option User
  country : CountryCode
  email : String
deriving DecidableEq, Repr

structure DiscountInfo where
  id : Nat
deriving DecidableEq, Repr

/-- `prices.TaxedMoney` as passed through the subtotal collaborator. -/
structure TaxedMoney where
  net : Rat
  gross : Rat
deriving DecidableEq, Repr

/-- The two shipping-price calculation strategies referenced by
`DeliveryMethodInfo` (`base_calculations.base_checkout_shipping_price` and
`base_calculations.base_checkout_shipping_price_click_and_collect`). -/
inductive ShippingCalculationStrategy where
  | baseCheckoutShippingPrice
  | baseCheckoutShippingPriceClickAndCollect
deriving DecidableEq, Repr

/-! ## `CheckoutLineInfo`, `CheckoutInfo`, `DeliveryMethodInfo` -/

structure CheckoutLineInfo where
  line : CheckoutLine
  variant : ProductVariant
  channel_listing : ProductVariantChannelListing
  product : Product
  product_type : ProductType
  collections : List Collection
deriving DecidableEq, Repr

/-- A delivery method is a shipping method or a warehouse (`Union` in the
source); the absent case is `Option` around this. -/
abbrev DeliveryMethod := ShippingMethod ⊕ Warehouse

structure DeliveryMethodInfo where
  is_click_and_collect : Bool
  is_local_collection_point : Bool
  delivery_method : Option DeliveryMethod
  shipping_address : Option Address
  shipping_calculation_strategy : ShippingCalculationStrategy
deriving DecidableEq, Repr

structure CheckoutInfo where
  checkout : Checkout
  user : Option User
  channel : Channel
  billing_address : Option Address
  shipping_address : Option Address
  shipping_method : Option ShippingMethod
  delivery_method_info : DeliveryMethodInfo
  valid_shipping_methods : List ShippingMethod
  valid_pick_up_points : List Warehouse
  shipping_method_channel_listings : Option ShippingMethodChannelListing
deriving DecidableEq, Repr

/-- `CheckoutInfo.valid_delivery_methods`:
`list(itertools.chain(self.valid_shipping_methods, self.valid_pick_up_points))`. -/
def CheckoutInfo.valid_delivery_methods (ci : CheckoutInfo) : List DeliveryMethod :=
  ci.valid_shipping_methods.map Sum.inl ++ ci.valid_pick_up_points.map Sum.inr

/-- `CheckoutInfo.get_country`: `address = shipping_address or billing_address`;
if that address is `None` or its country is falsy, the checkout's own country
code; otherwise the address country code. -/
def CheckoutInfo.get_country (ci : CheckoutInfo) : CountryCode :=
  match ci.shipping_address.orElse (fun _ => ci.billing_address) with
  | none => ci.checkout.country
  | some a =>
    match a.country with
    | none => ci.checkout.country
    | some code => code

/-- `CheckoutInfo.get_customer_email`. -/
def CheckoutInfo.get_customer_email (ci : CheckoutInfo) : String :=
  match ci.user with
  | some u => u.email
  | none => ci.checkout.email

/-- `DeliveryMethodInfo.from_delivery_method` restricted to the annotated domain
`Optional[Union[ShippingMethod, Warehouse]]`: the `NoneType`/`ShippingMethod`
registration takes the standard shipping path, the `Warehouse` registration the
click-and-collect path with the warehouse's own address. -/
def DeliveryMethodInfo.from_delivery_method (delivery_method : Option DeliveryMethod)
    (shipping_address : Option Address) : DeliveryMethodInfo :=
  match delivery_method with
  | none =>
    { is_click_and_collect := false
      is_local_collection_point := false
      shipping_address := shipping_address
      delivery_method := none
      shipping_calculation_strategy := .baseCheckoutShippingPrice }
  | some (Sum.inl m) =>
    { is_click_and_collect := false
      is_local_collection_point := false
      shipping_address := shipping_address
      delivery_method := some (Sum.inl m)
      shipping_calculation_strategy := .baseCheckoutShippingPrice }
  | some (Sum.inr w) =>
    { is_click_and_collect := true
      is_local_collection_point :=
        w.click_and_collect_option == WarehouseClickAndCollectOption.localStock
      delivery_method := some (Sum.inr w)
      shipping_address := some w.address
      shipping_calculation_strategy := .baseCheckoutShippingPriceClickAndCollect }

/-- An arbitrary Python value handed to the `singledispatchmethod` classifier:
the three registered types, or a value of any other, unregistered type. -/
inductive PyDeliveryMethod where
  | none
  | shippingMethod (m : ShippingMethod)
  | warehouse (w : Warehouse)
  | otherObject (tag : String)
deriving DecidableEq, Repr

/-- The full `singledispatchmethod` dispatch of
`DeliveryMethodInfo.from_delivery_method`: registered types delegate to the
corresponding implementation, every other type hits the base implementation,
which raises `NotImplementedError("Incompatible Type")`. -/
def from_delivery_method_dispatch (dm : PyDeliveryMethod) (shipping_address : Option Address) :
    Except String DeliveryMethodInfo :=
  match dm with
  | .none => .ok (DeliveryMethodInfo.from_delivery_method none shipping_address)
  | .shippingMethod m =>
      .ok (DeliveryMethodInfo.from_delivery_method (some (Sum.inl m)) shipping_address)
  | .warehouse w =>
      .ok (DeliveryMethodInfo.from_delivery_method (some (Sum.inr w)) shipping_address)
  | .otherObject _ => .error "Incompatible Type"

/-- `DeliveryMethodInfo.get_warehouse_filter_lookup`: a filter on the warehouse
pk when the method is a local collection point, else empty. -/
def DeliveryMethodInfo.get_warehouse_filter_lookup (info : DeliveryMethodInfo) : Option Nat :=
  match info.delivery_method with
  | some (Sum.inr w) => if info.is_local_collection_point then some w.pk else none
  | _ => none

/-! ## `fetch_checkout_lines` -/

/-- The listing scan inside `fetch_checkout_lines`: iterate all of the
variant's channel listings, keeping the one whose `channel_id` matches (the
loop has no break, so a later match overwrites an earlier one). -/
def matchingVariantListing (channel_id : Nat) (listings : List ProductVariantChannelListing) :
    Option ProductVariantChannelListing :=
  listings.foldl
    (fun acc cl => if cl.channel_id == channel_id then some cl else acc) none

/-- Assemble the `CheckoutLineInfo` for one line once a listing was found. -/
def mkCheckoutLineInfo (line : CheckoutLine) (cl : ProductVariantChannelListing) :
    CheckoutLineInfo :=
  { line := line
    variant := line.variant
    channel_listing := cl
    product := line.variant.product
    product_type := line.variant.product.product_type
    collections := line.variant.product.collections }

/-- `fetch_checkout_lines`: one `CheckoutLineInfo` per checkout line in order;
a line whose variant has no listing for the checkout's channel is skipped
(`continue`), not an error. -/
def fetch_checkout_lines (checkout : Checkout) : List CheckoutLineInfo :=
  checkout.lines.filterMap fun line =>
    match matchingVariantListing checkout.channel_id line.variant.channel_listings with
    | none => none
    | some cl => some (mkCheckoutLineInfo line cl)

/-! ## External collaborators of the resolver -/

/-- The external collaborators `fetch.py` calls out to: the
`ShippingMethodChannelListing` store, the plugin manager's subtotal
calculator, and the two eligibility resolvers from `checkout/utils.py`. -/
structure Collaborators where
  shipping_listings : List ShippingMethodChannelListing
  calculate_checkout_subtotal :
    CheckoutInfo → List CheckoutLineInfo → Option Address → List DiscountInfo → TaxedMoney
  get_valid_shipping_methods_for_checkout :
    CheckoutInfo → List CheckoutLineInfo → TaxedMoney → Option CountryCode →
      Option (List ShippingMethod)
  get_valid_collection_points_for_checkout :
    List CheckoutLineInfo → Option (List Warehouse)

/-- `ShippingMethodChannelListing.objects.filter(shipping_method=…, channel=…).first()`.
A `None` shipping method matches no row (the FK is non-nullable). -/
def Collaborators.listing_first (env : Collaborators) (sm : Option ShippingMethod)
    (channel : Channel) : Option ShippingMethodChannelListing :=
  match sm with
  | none => none
  | some m =>
    (env.shipping_listings.filter
      (fun l => l.shipping_method_id == m.id && l.channel_id == channel.id)).head?

/-! ## Validity computation and the resolver operations -/

/-- `get_valid_shipping_method_list_for_checkout_info`: country code from the
address argument (empty string when the address has no country, `None` when
there is no address), subtotal from the manager (which is passed
`checkout_info.shipping_address`, not the argument address), then the
eligibility resolver; a `None` result materializes to the empty list. -/
def get_valid_shipping_method_list_for_checkout_info (env : Collaborators)
    (checkout_info : CheckoutInfo) (shipping_address : Option Address)
    (lines : List CheckoutLineInfo) (discounts : List DiscountInfo) :
    List ShippingMethod :=
  let country_code : Option CountryCode :=
    match shipping_address with
    | none => none
    | some a => some (a.country.getD "")
  let subtotal :=
    env.calculate_checkout_subtotal checkout_info lines checkout_info.shipping_address discounts
  match env.get_valid_shipping_methods_for_checkout checkout_info lines subtotal country_code with
  | none => []
  | some ms => ms

/-- `get_valid_collection_points_for_checkout_info`: the stock-eligibility
resolver over the lines; a `None` result materializes to the empty list. -/
def get_valid_collection_points_for_checkout_info (env : Collaborators)
    (lines : List CheckoutLineInfo) : List Warehouse :=
  match env.get_valid_collection_points_for_checkout lines with
  | none => []
  | some ws => ws

/-- `checkout.collection_point or shipping_method` as the classifier input. -/
def checkoutDeliveryMethod (checkout : Checkout) : Option DeliveryMethod :=
  match checkout.collection_point with
  | some w => some (Sum.inr w)
  | none =>
    match checkout.shipping_method with
    | some m => some (Sum.inl m)
    | none => none

/-- `fetch_checkout_info`: resolve channel, addresses, legacy shipping method
and its channel listing, classify the delivery method, assemble the context
with empty validity lists, then fill in the valid shipping methods and pickup
points. -/
def fetch_checkout_info (env : Collaborators) (checkout : Checkout)
    (lines : List CheckoutLineInfo) (discounts : List DiscountInfo) : CheckoutInfo :=
  let channel := checkout.channel
  let shipping_address := checkout.shipping_address
  let shipping_method := checkout.shipping_method
  let shipping_channel_listings := env.listing_first shipping_method channel
  let delivery_method := checkoutDeliveryMethod checkout
  let delivery_method_info :=
    DeliveryMethodInfo.from_delivery_method delivery_method shipping_address
  let checkout_info : CheckoutInfo :=
    { checkout := checkout
      user := checkout.user
      channel := channel
      billing_address := checkout.billing_address
      shipping_address := shipping_address
      shipping_method := shipping_method
      delivery_method_info := delivery_method_info
      shipping_method_channel_listings := shipping_channel_listings
      valid_shipping_methods := []
      valid_pick_up_points := [] }
  let valid_shipping_methods :=
    get_valid_shipping_method_list_for_checkout_info env checkout_info shipping_address
      lines discounts
  let valid_pick_up_points := get_valid_collection_points_for_checkout_info env lines
  { checkout_info with
      valid_shipping_methods := valid_shipping_methods
      valid_pick_up_points := valid_pick_up_points
      delivery_method_info := delivery_method_info }

/-- `update_checkout_info_shipping_address`: replace the shipping address,
recompute the valid shipping methods against it, and re-classify the current
delivery method against it. -/
def update_checkout_info_shipping_address (env : Collaborators)
    (checkout_info : CheckoutInfo) (address : Option Address)
    (lines : List CheckoutLineInfo) (discounts : List DiscountInfo) : CheckoutInfo :=
  let ci := { checkout_info with shipping_address := address }
  let valid_methods :=
    get_valid_shipping_method_list_for_checkout_info env ci address lines discounts
  let delivery_method := ci.delivery_method_info.delivery_method
  { ci with
      valid_shipping_methods := valid_methods
      delivery_method_info :=
        DeliveryMethodInfo.from_delivery_method delivery_method address }

/-- `update_checkout_info_shipping_method`: set the legacy shipping-method
field and refresh its channel-listing lookup (skipped, cleared, when no
method is supplied). -/
def update_checkout_info_shipping_method (env : Collaborators)
    (checkout_info : CheckoutInfo) (shipping_method : Option ShippingMethod) : CheckoutInfo :=
  { checkout_info with
      shipping_method := shipping_method
      shipping_method_channel_listings :=
        match shipping_method with
        | some _ => env.listing_first shipping_method checkout_info.channel
        | none => none }

/-- `update_checkout_info_delivery_method`: re-classify against the current
shipping address; when the result is not click-and-collect, refresh the
shipping-method channel listing (only when a method was supplied, else clear
it). -/
def update_checkout_info_delivery_method (env : Collaborators)
    (checkout_info : CheckoutInfo) (delivery_method : Option DeliveryMethod) : CheckoutInfo :=
  let info :=
    DeliveryMethodInfo.from_delivery_method delivery_method checkout_info.shipping_address
  let ci := { checkout_info with delivery_method_info := info }
  if info.is_click_and_collect then ci
  else
    { ci with
        shipping_method_channel_listings :=
          match delivery_method with
          | none => none
          | some (Sum.inl m) => env.listing_first (some m) ci.channel
          -- unreachable: a warehouse argument takes the click-and-collect branch
          | some (Sum.inr _) => none }

/-! ## Gateway transaction orchestrator (Stripe plugin)

Modelled from the spec: the Stripe plugin module itself
(`saleor/payment/gateways/stripe/plugin.py` and its `consts.py`) is not part
of the provided sources — only its test file is — so the orchestrator below is
reconstructed from the spec's section 4.4 and section 3, cross-checked against
the assertions of `tests/test_plugin.py`. -/

inductive TransactionKind where
  | AUTH
  | CAPTURE
  | PENDING
  | ACTION_TO_CONFIRM
  | REFUND
  | VOID
deriving DecidableEq, Repr

/-- Modelled from the spec: the gateway intent statuses named by the spec's
confirm table and `consts.py` (`AUTHORIZED_STATUS`, `SUCCESS_STATUS`,
`PROCESSING_STATUS`, and the `ACTION_REQUIRED_STATUSES` set). -/
inductive IntentStatus where
  | authorized
  | succeeded
  | processing
  | requiresAction
  | requiresConfirmation
deriving DecidableEq, Repr

/-- Modelled from the spec: the action-required status set. -/
def ACTION_REQUIRED_STATUSES : List IntentStatus :=
  [IntentStatus.requiresAction, IntentStatus.requiresConfirmation]

/-- Modelled from the spec: `AUTOMATIC_CAPTURE_METHOD` from `consts.py`. -/
def AUTOMATIC_CAPTURE_METHOD : String := "automatic"

/-- Modelled from the spec: `MANUAL_CAPTURE_METHOD` from `consts.py`. -/
def MANUAL_CAPTURE_METHOD : String := "manual"

/-- Modelled from the spec: a gateway error carrying its message, recovered
locally into a failed response, never re-raised. -/
structure StripeError where
  message : String
deriving DecidableEq, Repr

/-- Modelled from the spec: the structured intent object a gateway call
returns — id, status, amount in minor units, currency, client secret, last raw
payload. -/
structure PaymentIntent where
  id : String
  client_secret : Option String
  amount : Int
  currency : String
  status : IntentStatus
  last_response : Option String
deriving DecidableEq, Repr

/-- Modelled from the spec: an append-only transaction record of a gateway
interaction. -/
structure Transaction where
  kind : TransactionKind
  is_success : Bool
  action_required : Bool
  token : String
  gateway_response : Option String
  amount : Rat
  currency : String
deriving DecidableEq, Repr

/-- Modelled from the spec: a payment's total, currency, stored gateway token
and its transaction history ordered by creation (appends go at the end). -/
structure PaymentRecord where
  total : Rat
  currency : String
  token : String
  transactions : List Transaction
deriving DecidableEq, Repr

/-- Modelled from the spec: the normalized output of every orchestrator
operation.  `action_required_data` is the optional action-required payload: a
present payload carries an optional client secret (`some none` is a payload
with a null secret). -/
structure GatewayResponse where
  kind : TransactionKind
  is_success : Bool
  action_required : Bool
  action_required_data : Option (Option String)
  transaction_id : String
  amount : Rat
  currency : String
  error : Option String
  raw_response : Option String
  transaction_already_processed : Bool
deriving DecidableEq, Repr

/-- Modelled from the spec: conversion of a decimal amount to the gateway's
minor-unit integer (two decimal digits, rounded). -/
def price_to_minor_unit (amount : Rat) : Int :=
  round (amount * 100)

/-- Modelled from the spec: conversion back from minor units to the domain's
decimal money. -/
def price_from_minor_unit (amount : Int) : Rat :=
  (amount : Rat) / 100

/-- The transaction record appended for a response (kind, flags, token, raw
payload, amount and currency all taken from the response). -/
def txOfResponse (resp : GatewayResponse) : Transaction :=
  { kind := resp.kind
    is_success := resp.is_success
    action_required := resp.action_required
    token := resp.transaction_id
    gateway_response := resp.raw_response
    amount := resp.amount
    currency := resp.currency }

/-- Modelled from the spec: a transaction counts for the idempotency check
when it is successful, not action-required, and of kind `AUTH` or `CAPTURE`. -/
def isProcessedTransaction (tx : Transaction) : Bool :=
  tx.is_success && !tx.action_required
    && (tx.kind == TransactionKind.AUTH || tx.kind == TransactionKind.CAPTURE)

/-- Modelled from the spec: the most recent successful, non-action-required
`AUTH`/`CAPTURE` transaction in the history (creation order, latest wins). -/
def lastProcessedTransaction (txs : List Transaction) : Option Transaction :=
  (txs.filter isProcessedTransaction).getLast?

/-- Modelled from the spec: the status → (kind, actionRequired) mapping of
confirm's live lookup. -/
def intentOutcome (status : IntentStatus) : TransactionKind × Bool :=
  match status with
  | .authorized => (TransactionKind.AUTH, false)
  | .succeeded => (TransactionKind.CAPTURE, false)
  | .processing => (TransactionKind.PENDING, false)
  | .requiresAction => (TransactionKind.ACTION_TO_CONFIRM, true)
  | .requiresConfirmation => (TransactionKind.ACTION_TO_CONFIRM, true)

/-- Result of one orchestrator operation: the normalized response, the
payment's new transaction history, and whether the gateway was invoked. -/
structure OperationResult where
  response : GatewayResponse
  transactions : List Transaction
  gateway_called : Bool
deriving Repr

/-- Modelled from the spec: `confirm_payment`.  Idempotency check first — on a
prior processed transaction, return its recorded data with
`transaction_already_processed = true`, no gateway call, no append.  Otherwise
retrieve the intent (`retrieve` is the gateway collaborator's answer for the
stored token): on a gateway error, degrade to a failed `AUTH` response with the
payment's own amount and currency; on success, map the status through the
confirm table, taking amount and currency from the reported intent. -/
def confirm_payment (p : PaymentRecord) (retrieve : Except StripeError PaymentIntent) :
    OperationResult :=
  match lastProcessedTransaction p.transactions with
  | some tx =>
    { response :=
        { kind := tx.kind
          is_success := true
          action_required := false
          action_required_data := none
          transaction_id := tx.token
          amount := tx.amount
          currency := tx.currency
          error := none
          raw_response := tx.gateway_response
          transaction_already_processed := true }
      transactions := p.transactions
      gateway_called := false }
  | none =>
    match retrieve with
    | .error e =>
      let resp : GatewayResponse :=
        { kind := TransactionKind.AUTH
          is_success := false
          action_required := false
          action_required_data := none
          transaction_id := ""
          amount := p.total
          currency := p.currency
          error := some e.message
          raw_response := none
          transaction_already_processed := false }
      { response := resp
        transactions := p.transactions ++ [txOfResponse resp]
        gateway_called := true }
    | .ok intent =>
      let outcome := intentOutcome intent.status
      let resp : GatewayResponse :=
        { kind := outcome.1
          is_success := true
          action_required := outcome.2
          action_required_data := none
          transaction_id := intent.id
          amount := price_from_minor_unit intent.amount
          currency := intent.currency
          error := none
          raw_response := intent.last_response
          transaction_already_processed := false }
      { response := resp
        transactions := p.transactions ++ [txOfResponse resp]
        gateway_called := true }

/-- Result of `process_payment`: the operation result plus the capture method
the gateway's intent creation was invoked with. -/
structure ProcessResult where
  result : OperationResult
  called_capture_method : String
deriving Repr

/-- Modelled from the spec: `process_payment`.  Creates a payment intent with
automatic or manual capture per configuration (`create` is the gateway
collaborator, keyed by the capture method passed to it).  On success: kind
`ACTION_TO_CONFIRM`, action required, client secret in the action-required
payload, id from the intent.  On gateway failure: failed response, empty
transaction id, the gateway's message as error, no raw response, an
action-required payload with a null secret. -/
def process_payment (auto_capture : Bool) (p : PaymentRecord)
    (create : String → Except StripeError PaymentIntent) : ProcessResult :=
  let capture_method :=
    if auto_capture then AUTOMATIC_CAPTURE_METHOD else MANUAL_CAPTURE_METHOD
  match create capture_method with
  | .ok intent =>
    let resp : GatewayResponse :=
      { kind := TransactionKind.ACTION_TO_CONFIRM
        is_success := true
        action_required := true
        action_required_data := some intent.client_secret
        transaction_id := intent.id
        amount := p.total
        currency := p.currency
        error := none
        raw_response := intent.last_response
        transaction_already_processed := false }
    { result :=
        { response := resp
          transactions := p.transactions ++ [txOfResponse resp]
          gateway_called := true }
      called_capture_method := capture_method }
  | .error e =>
    let resp : GatewayResponse :=
      { kind := TransactionKind.ACTION_TO_CONFIRM
        is_success := false
        action_required := true
        action_required_data := some none
        transaction_id := ""
        amount := p.total
        currency := p.currency
        error := some e.message
        raw_response := none
        transaction_already_processed := false }
    { result :=
        { response := resp
          transactions := p.transactions ++ [txOfResponse resp]
          gateway_called := true }
      called_capture_method := capture_method }

/-! ## Helper lemmas -/

/-- The no-break listing scan keeps the **last** matching listing: the fold
equals `getLast?` of the filtered list. -/
theorem matchingVariantListing_eq_getLast (channel_id : Nat)
    (ls : List ProductVariantChannelListing) :
    matchingVariantListing channel_id ls
      = (ls.filter (fun cl => cl.channel_id == channel_id)).getLast? := by
  unfold matchingVariantListing
  induction ls using List.reverseRecOn with
  | nil => rfl
  | append_singleton l a ih =>
    rw [List.foldl_append, List.filter_append]
    by_cases h : (a.channel_id == channel_id) = true
    · simp only [List.foldl_cons, List.foldl_nil, if_pos h, List.filter_cons, h, if_true,
        List.filter_nil, List.getLast?_concat]
    · simp only [List.foldl_cons, List.foldl_nil, List.filter_cons, h,
        Bool.false_eq_true, if_false, List.filter_nil, List.append_nil]
      exact ih

/-- The lines surviving `fetch_checkout_lines` are exactly the lines with a
matching listing, in order. -/
theorem fetch_checkout_lines_map_line (c : Checkout) :
    (fetch_checkout_lines c).map CheckoutLineInfo.line
      = c.lines.filter
          (fun line =>
            (matchingVariantListing c.channel_id line.variant.channel_listings).isSome) := by
  unfold fetch_checkout_lines
  induction c.lines with
  | nil => rfl
  | cons a ls ih =>
    rw [List.filterMap_cons, List.filter_cons]
    cases h : matchingVariantListing c.channel_id a.variant.channel_listings with
    | none => simpa [h] using ih
    | some cl => simpa [h, mkCheckoutLineInfo] using ih

/-! ## Claim theorems -/

/-- C2: for every `CheckoutInfo`, `valid_delivery_methods` is the
concatenation of the valid shipping methods followed by the valid pickup
points, in that order, and this holds for the context produced by
`fetch_checkout_info` and by each of the three update operations. -/
theorem valid_delivery_methods_is_concat :
    (∀ ci : CheckoutInfo,
      ci.valid_delivery_methods
        = ci.valid_shipping_methods.map Sum.inl ++ ci.valid_pick_up_points.map Sum.inr)
    ∧ (∀ (env : Collaborators) (c : Checkout) (lines : List CheckoutLineInfo)
        (discounts : List DiscountInfo),
      (fetch_checkout_info env c lines discounts).valid_delivery_methods
        = (fetch_checkout_info env c lines discounts).valid_shipping_methods.map Sum.inl
            ++ (fetch_checkout_info env c lines discounts).valid_pick_up_points.map Sum.inr)
    ∧ (∀ (env : Collaborators) (ci : CheckoutInfo) (addr : Option Address)
        (lines : List CheckoutLineInfo) (discounts : List DiscountInfo),
      (update_checkout_info_shipping_address env ci addr lines discounts).valid_delivery_methods
        = (update_checkout_info_shipping_address env ci addr lines
            discounts).valid_shipping_methods.map Sum.inl
            ++ (update_checkout_info_shipping_address env ci addr lines
                discounts).valid_pick_up_points.map Sum.inr)
    ∧ (∀ (env : Collaborators) (ci : CheckoutInfo) (m : Option ShippingMethod),
      (update_checkout_info_shipping_method env ci m).valid_delivery_methods
        = (update_checkout_info_shipping_method env ci m).valid_shipping_methods.map Sum.inl
            ++ (update_checkout_info_shipping_method env ci m).valid_pick_up_points.map Sum.inr)
    ∧ (∀ (env : Collaborators) (ci : CheckoutInfo) (dm : Option DeliveryMethod),
      (update_checkout_info_delivery_method env ci dm).valid_delivery_methods
        = (update_checkout_info_delivery_method env ci dm).valid_shipping_methods.map Sum.inl
            ++ (update_checkout_info_delivery_method env ci dm).valid_pick_up_points.map
                Sum.inr) :=
  ⟨fun _ => rfl, fun _ _ _ _ => rfl, fun _ _ _ _ _ => rfl, fun _ _ _ => rfl, fun _ _ _ => rfl⟩

/-- C4: classification dispatch — click-and-collect holds iff the input is a
warehouse; local-collection-point holds iff it is a warehouse with the
local-stock-only option; `None`/shipping-method inputs select the base
shipping-price strategy and keep the given address; a warehouse input selects
the click-and-collect strategy with the warehouse's own address. -/
theorem from_delivery_method_classification (dm : Option DeliveryMethod)
    (addr : Option Address) :
    ((DeliveryMethodInfo.from_delivery_method dm addr).is_click_and_collect = true
        ↔ ∃ w, dm = some (Sum.inr w))
    ∧ ((DeliveryMethodInfo.from_delivery_method dm addr).is_local_collection_point = true
        ↔ ∃ w, dm = some (Sum.inr w)
            ∧ w.click_and_collect_option = WarehouseClickAndCollectOption.localStock)
    ∧ ((dm = none ∨ ∃ m, dm = some (Sum.inl m)) →
        (DeliveryMethodInfo.from_delivery_method dm addr).shipping_calculation_strategy
            = ShippingCalculationStrategy.baseCheckoutShippingPrice
          ∧ (DeliveryMethodInfo.from_delivery_method dm addr).shipping_address = addr)
    ∧ (∀ w, dm = some (Sum.inr w) →
        (DeliveryMethodInfo.from_delivery_method dm addr).shipping_calculation_strategy
            = ShippingCalculationStrategy.baseCheckoutShippingPriceClickAndCollect
          ∧ (DeliveryMethodInfo.from_delivery_method dm addr).shipping_address
              = some w.address) := by
  rcases dm with _ | (m | w) <;>
    simp [DeliveryMethodInfo.from_delivery_method, beq_iff_eq]

/-- Witness for C4 at a concrete local-stock warehouse. -/
theorem from_delivery_method_classification_witness :
    (DeliveryMethodInfo.from_delivery_method
        (some (Sum.inr
          { pk := 7
            click_and_collect_option := WarehouseClickAndCollectOption.localStock
            address := { country := some "PL" } }))
        none).is_local_collection_point = true :=
  ((from_delivery_method_classification _ _).2.1).mpr ⟨_, rfl, rfl⟩

/-- C9: the classifier's base `singledispatchmethod` implementation — any
value of an unregistered type — raises (`Except.error`) and never produces a
`DeliveryMethodInfo`. -/
theorem from_delivery_method_dispatch_fails_fast (tag : String) (addr : Option Address) :
    from_delivery_method_dispatch (PyDeliveryMethod.otherObject tag) addr
        = Except.error "Incompatible Type"
    ∧ ∀ info, from_delivery_method_dispatch (PyDeliveryMethod.otherObject tag) addr
        ≠ Except.ok info := by
  refine ⟨rfl, fun info h => ?_⟩
  simp [from_delivery_method_dispatch] at h

/-- Witness for C9 at a concrete unregistered value. -/
theorem from_delivery_method_dispatch_fails_fast_witness :
    from_delivery_method_dispatch (PyDeliveryMethod.otherObject "Checkout") none
        = Except.error "Incompatible Type" :=
  (from_delivery_method_dispatch_fails_fast "Checkout" none).1

/-! ### C7: `get_country` priority -/

/-- A checkout whose shipping address has no country, with a billing address
whose country is "DE" and default country "US". -/
def exCheckoutC7 : Checkout :=
  { lines := []
    channel_id := 1
    channel := { id := 1 }
    billing_address := some { country := some "DE" }
    shipping_address := some { country := none }
    shipping_method := none
    collection_point := none
    user := none
    country := "US"
    email := "" }

def exCheckoutInfoC7 : CheckoutInfo :=
  { checkout := exCheckoutC7
    user := none
    channel := { id := 1 }
    billing_address := some { country := some "DE" }
    shipping_address := some { country := none }
    shipping_method := none
    delivery_method_info := DeliveryMethodInfo.from_delivery_method none (some { country := none })
    valid_shipping_methods := []
    valid_pick_up_points := []
    shipping_method_channel_listings := none }

/-- C7 counterexample: here the shipping address is present but provides no
country while the billing address provides "DE"; the claim says the billing
country is used, but `get_country` returns the checkout default "US". -/
theorem get_country_counterexample :
    exCheckoutInfoC7.shipping_address.isSome = true
    ∧ exCheckoutInfoC7.shipping_address.bind Address.country = none
    ∧ exCheckoutInfoC7.billing_address.bind Address.country = some "DE"
    ∧ exCheckoutInfoC7.get_country = "US"
    ∧ exCheckoutInfoC7.get_country ≠ "DE" := by
  refine ⟨rfl, rfl, rfl, rfl, ?_⟩
  decide

/-- C7 amended: `get_country` resolves from the first **present** address
among shipping then billing; if that address provides a country its code is
used, otherwise the checkout's default country code — the billing address is
consulted only when the shipping address is absent entirely. -/
theorem get_country_priority (ci : CheckoutInfo) :
    (∀ a code, ci.shipping_address = some a → a.country = some code →
        ci.get_country = code)
    ∧ (∀ a code, ci.shipping_address = none → ci.billing_address = some a →
        a.country = some code → ci.get_country = code)
    ∧ ((ci.shipping_address.orElse fun _ => ci.billing_address).bind Address.country = none →
        ci.get_country = ci.checkout.country) := by
  unfold CheckoutInfo.get_country
  refine ⟨fun a code hs hc => ?_, fun a code hs hb hc => ?_, fun h => ?_⟩
  · rw [hs]
    simp [Option.orElse, hc]
  · rw [hs, hb]
    simp [Option.orElse, hc]
  · cases hsa : ci.shipping_address.orElse fun _ => ci.billing_address with
    | none => rfl
    | some a =>
      rw [hsa] at h
      have hac : a.country = none := by simpa using h
      simp [hac]

/-- Witness for the amended C7 at a concrete context. -/
theorem get_country_priority_witness :
    ({ exCheckoutInfoC7 with shipping_address := some { country := some "PL" } }
        : CheckoutInfo).get_country = "PL" :=
  (get_country_priority _).1 { country := some "PL" } "PL" rfl rfl

/-! ### C8 and C10: `fetch_checkout_lines` -/

/-- C8: the loaded line sequence is exactly the checkout's lines with a
matching channel listing, in the checkout's line order, and a line with no
matching listing is absent (the loader is a total function — it never
raises). -/
theorem fetch_checkout_lines_skips_unlisted (c : Checkout) :
    ((fetch_checkout_lines c).map CheckoutLineInfo.line
      = c.lines.filter
          (fun line =>
            (matchingVariantListing c.channel_id line.variant.channel_listings).isSome))
    ∧ ∀ line ∈ c.lines,
        matchingVariantListing c.channel_id line.variant.channel_listings = none →
        ∀ info ∈ fetch_checkout_lines c, info.line ≠ line := by
  refine ⟨fetch_checkout_lines_map_line c, fun line _ hnone info hinfo heq => ?_⟩
  unfold fetch_checkout_lines at hinfo
  rcases List.mem_filterMap.mp hinfo with ⟨a, _, ha⟩
  cases hm : matchingVariantListing c.channel_id a.variant.channel_listings with
  | none => rw [hm] at ha; exact Option.noConfusion ha
  | some cl =>
    rw [hm] at ha
    have hline : info.line = a := by
      cases ha
      rfl
    rw [heq] at hline
    rw [hline] at hnone
    rw [hnone] at hm
    exact Option.noConfusion hm

def exListedLine : CheckoutLine :=
  { id := 1
    variant :=
      { id := 1
        product := { id := 1, product_type := { id := 1 }, collections := [] }
        channel_listings := [{ channel_id := 5, price := 3 }] } }

def exUnlistedLine : CheckoutLine :=
  { id := 2
    variant :=
      { id := 2
        product := { id := 2, product_type := { id := 1 }, collections := [] }
        channel_listings := [{ channel_id := 9, price := 4 }] } }

def exCheckoutC8 : Checkout :=
  { lines := [exListedLine, exUnlistedLine]
    channel_id := 5
    channel := { id := 5 }
    billing_address := none
    shipping_address := none
    shipping_method := none
    collection_point := none
    user := none
    country := "US"
    email := "" }

/-- Witness for C8: on a two-line checkout whose second line has no listing
for channel 5, the loaded info for the first line is not the second line. -/
theorem fetch_checkout_lines_skips_unlisted_witness :
    (mkCheckoutLineInfo exListedLine { channel_id := 5, price := 3 }).line ≠ exUnlistedLine :=
  (fetch_checkout_lines_skips_unlisted exCheckoutC8).2 exUnlistedLine (by decide) rfl
    (mkCheckoutLineInfo exListedLine { channel_id := 5, price := 3 }) (by decide)

/-- C10: a line whose variant has two or more listings matching the
checkout's channel is loaded with the **last** matching listing in iteration
order as its `channel_listing`. -/
theorem fetch_checkout_lines_uses_last_listing (c : Checkout) (line : CheckoutLine)
    (hmem : line ∈ c.lines)
    (h2 : 2 ≤ (line.variant.channel_listings.filter
        (fun cl => cl.channel_id == c.channel_id)).length) :
    ∃ info ∈ fetch_checkout_lines c,
      info.line = line
      ∧ some info.channel_listing
          = (line.variant.channel_listings.filter
              (fun cl => cl.channel_id == c.channel_id)).getLast? := by
  have hne : (line.variant.channel_listings.filter
      (fun cl => cl.channel_id == c.channel_id)) ≠ [] := by
    intro hnil
    rw [hnil] at h2
    simp at h2
  cases hlast : (line.variant.channel_listings.filter
      (fun cl => cl.channel_id == c.channel_id)).getLast? with
  | none => exact absurd (List.getLast?_eq_none_iff.mp hlast) hne
  | some cl =>
    refine ⟨mkCheckoutLineInfo line cl, ?_, rfl, rfl⟩
    unfold fetch_checkout_lines
    refine List.mem_filterMap.mpr ⟨line, hmem, ?_⟩
    rw [matchingVariantListing_eq_getLast, hlast]

def exDoubleListedLine : CheckoutLine :=
  { id := 3
    variant :=
      { id := 3
        product := { id := 3, product_type := { id := 1 }, collections := [] }
        channel_listings :=
          [{ channel_id := 5, price := 3 }, { channel_id := 5, price := 8 }] } }

def exCheckoutC10 : Checkout :=
  { exCheckoutC8 with lines := [exDoubleListedLine] }

/-- Witness for C10: a variant with two listings for channel 5 is loaded with
the second one. -/
theorem fetch_checkout_lines_uses_last_listing_witness :
    ∃ info ∈ fetch_checkout_lines exCheckoutC10,
      info.line = exDoubleListedLine
      ∧ some info.channel_listing
          = (exDoubleListedLine.variant.channel_listings.filter
              (fun cl => cl.channel_id == exCheckoutC10.channel_id)).getLast? :=
  fetch_checkout_lines_uses_last_listing exCheckoutC10 exDoubleListedLine (by decide)
    (by decide)

/-! ### Gateway lemmas -/

/-- Appending a transaction that passes the idempotency predicate makes it the
most recent processed transaction, whatever the earlier history. -/
theorem lastProcessedTransaction_append (txs : List Transaction) (tx : Transaction)
    (h : isProcessedTransaction tx = true) :
    lastProcessedTransaction (txs ++ [tx]) = some tx := by
  unfold lastProcessedTransaction
  rw [List.filter_append,
    show List.filter isProcessedTransaction [tx] = [tx] by simp [h],
    List.getLast?_concat]

/-- The short-circuit branch of `confirm_payment`, as one equation. -/
theorem confirm_payment_shortcircuit (p : PaymentRecord)
    (gw : Except StripeError PaymentIntent) (tx : Transaction)
    (h : lastProcessedTransaction p.transactions = some tx) :
    confirm_payment p gw
      = { response :=
            { kind := tx.kind
              is_success := true
              action_required := false
              action_required_data := none
              transaction_id := tx.token
              amount := tx.amount
              currency := tx.currency
              error := none
              raw_response := tx.gateway_response
              transaction_already_processed := true }
          transactions := p.transactions
          gateway_called := false } := by
  unfold confirm_payment
  rw [h]

/-- The live-lookup branch of `confirm_payment`: field-by-field description of
the response and the appended transaction. -/
theorem confirm_payment_live (p : PaymentRecord) (intent : PaymentIntent)
    (h : lastProcessedTransaction p.transactions = none) :
    (confirm_payment p (Except.ok intent)).response.kind = (intentOutcome intent.status).1
    ∧ (confirm_payment p (Except.ok intent)).response.is_success = true
    ∧ (confirm_payment p (Except.ok intent)).response.action_required
        = (intentOutcome intent.status).2
    ∧ (confirm_payment p (Except.ok intent)).response.transaction_id = intent.id
    ∧ (confirm_payment p (Except.ok intent)).response.amount
        = price_from_minor_unit intent.amount
    ∧ (confirm_payment p (Except.ok intent)).response.currency = intent.currency
    ∧ (confirm_payment p (Except.ok intent)).response.error = none
    ∧ (confirm_payment p (Except.ok intent)).gateway_called = true
    ∧ (confirm_payment p (Except.ok intent)).transactions
        = p.transactions ++ [txOfResponse (confirm_payment p (Except.ok intent)).response]
    ∧ (confirm_payment p (Except.ok intent)).response.transaction_already_processed
        = false := by
  unfold confirm_payment
  rw [h]
  exact ⟨rfl, rfl, rfl, rfl, rfl, rfl, rfl, rfl, rfl, rfl⟩

/-- The appended transaction mirrors the response's fields in the idempotency
predicate. -/
theorem isProcessedTransaction_txOfResponse (resp : GatewayResponse) :
    isProcessedTransaction (txOfResponse resp)
      = (resp.is_success && !resp.action_required
          && (resp.kind == TransactionKind.AUTH
              || resp.kind == TransactionKind.CAPTURE)) := rfl

/-! ### C1: confirm idempotency -/

/-- C1: with a prior successful, non-action-required `AUTH`/`CAPTURE`
transaction, `confirm_payment` returns that transaction's recorded kind,
amount, currency and transaction id with `transaction_already_processed`,
calls no gateway and appends nothing; and after a first confirm that
completes with kind `AUTH` on a fresh history, a second confirm (whatever the
gateway would now answer) short-circuits with identical data. -/
theorem confirm_already_processed :
    (∀ (p : PaymentRecord) (gw : Except StripeError PaymentIntent) (tx : Transaction),
        lastProcessedTransaction p.transactions = some tx →
        (confirm_payment p gw).response.transaction_already_processed = true
        ∧ (confirm_payment p gw).response.kind = tx.kind
        ∧ (confirm_payment p gw).response.amount = tx.amount
        ∧ (confirm_payment p gw).response.currency = tx.currency
        ∧ (confirm_payment p gw).response.transaction_id = tx.token
        ∧ (confirm_payment p gw).gateway_called = false
        ∧ (confirm_payment p gw).transactions = p.transactions)
    ∧ (∀ (p : PaymentRecord) (intent : PaymentIntent)
        (gw2 : Except StripeError PaymentIntent),
        lastProcessedTransaction p.transactions = none →
        intent.status = IntentStatus.authorized →
        (confirm_payment p (Except.ok intent)).response.kind = TransactionKind.AUTH
        ∧ (confirm_payment p (Except.ok intent)).response.is_success = true
        ∧ (confirm_payment
            { p with transactions := (confirm_payment p (Except.ok intent)).transactions }
            gw2).response.transaction_already_processed = true
        ∧ (confirm_payment
            { p with transactions := (confirm_payment p (Except.ok intent)).transactions }
            gw2).response.kind = (confirm_payment p (Except.ok intent)).response.kind
        ∧ (confirm_payment
            { p with transactions := (confirm_payment p (Except.ok intent)).transactions }
            gw2).response.amount = (confirm_payment p (Except.ok intent)).response.amount
        ∧ (confirm_payment
            { p with transactions := (confirm_payment p (Except.ok intent)).transactions }
            gw2).response.currency = (confirm_payment p (Except.ok intent)).response.currency
        ∧ (confirm_payment
            { p with transactions := (confirm_payment p (Except.ok intent)).transactions }
            gw2).response.transaction_id
              = (confirm_payment p (Except.ok intent)).response.transaction_id
        ∧ (confirm_payment
            { p with transactions := (confirm_payment p (Except.ok intent)).transactions }
            gw2).gateway_called = false) := by
  constructor
  · intro p gw tx h
    rw [confirm_payment_shortcircuit p gw tx h]
    exact ⟨rfl, rfl, rfl, rfl, rfl, rfl, rfl⟩
  · intro p intent gw2 h hs
    obtain ⟨hkind, hsucc, har, _, _, _, _, _, htxs, _⟩ := confirm_payment_live p intent h
    rw [hs] at hkind har
    have hproc :
        isProcessedTransaction
          (txOfResponse (confirm_payment p (Except.ok intent)).response) = true := by
      rw [isProcessedTransaction_txOfResponse, hkind, hsucc, har]
      rfl
    have hlast2 :
        lastProcessedTransaction
            ({ p with
                transactions :=
                  (confirm_payment p (Except.ok intent)).transactions } :
              PaymentRecord).transactions
          = some (txOfResponse (confirm_payment p (Except.ok intent)).response) := by
      show lastProcessedTransaction (confirm_payment p (Except.ok intent)).transactions
        = some (txOfResponse (confirm_payment p (Except.ok intent)).response)
      rw [htxs]
      exact lastProcessedTransaction_append _ _ hproc
    rw [confirm_payment_shortcircuit _ gw2 _ hlast2]
    exact ⟨hkind, hsucc, rfl, rfl, rfl, rfl, rfl, rfl⟩

def exTransactionAuth : Transaction :=
  { kind := TransactionKind.AUTH
    is_success := true
    action_required := false
    token := "pi_1"
    gateway_response := some "raw"
    amount := 10
    currency := "USD" }

def exPaymentProcessed : PaymentRecord :=
  { total := 10, currency := "USD", token := "pi_1", transactions := [exTransactionAuth] }

def exPaymentFresh : PaymentRecord :=
  { total := 10, currency := "USD", token := "pi_1", transactions := [] }

def exIntentAuthorized : PaymentIntent :=
  { id := "pi_1"
    client_secret := some "sec"
    amount := 1000
    currency := "USD"
    status := IntentStatus.authorized
    last_response := some "raw" }

/-- Witness for C1: a concrete already-processed payment short-circuits, and
a fresh payment confirmed twice short-circuits on the second call. -/
theorem confirm_already_processed_witness :
    (confirm_payment exPaymentProcessed
        (Except.error { message := "down" })).response.transaction_already_processed = true
    ∧ (confirm_payment
        { exPaymentFresh with
            transactions :=
              (confirm_payment exPaymentFresh (Except.ok exIntentAuthorized)).transactions }
        (Except.error { message := "down" })).response.transaction_already_processed = true :=
  ⟨(confirm_already_processed.1 exPaymentProcessed (Except.error { message := "down" })
      exTransactionAuth rfl).1,
    (confirm_already_processed.2 exPaymentFresh exIntentAuthorized
      (Except.error { message := "down" }) rfl rfl).2.2.1⟩

/-! ### C3: confirm status mapping -/

/-- C3: a confirm that is not short-circuited and whose retrieval succeeds
maps the gateway status as: authorized → `AUTH`, succeeded → `CAPTURE`,
processing → `PENDING` (all without action required), and any action-required
status → `ACTION_TO_CONFIRM` with action required — always successfully. -/
theorem confirm_status_mapping (p : PaymentRecord) (intent : PaymentIntent)
    (h : lastProcessedTransaction p.transactions = none) :
    (confirm_payment p (Except.ok intent)).gateway_called = true
    ∧ (confirm_payment p (Except.ok intent)).response.is_success = true
    ∧ (intent.status = IntentStatus.authorized →
        (confirm_payment p (Except.ok intent)).response.kind = TransactionKind.AUTH
        ∧ (confirm_payment p (Except.ok intent)).response.action_required = false)
    ∧ (intent.status = IntentStatus.succeeded →
        (confirm_payment p (Except.ok intent)).response.kind = TransactionKind.CAPTURE
        ∧ (confirm_payment p (Except.ok intent)).response.action_required = false)
    ∧ (intent.status = IntentStatus.processing →
        (confirm_payment p (Except.ok intent)).response.kind = TransactionKind.PENDING
        ∧ (confirm_payment p (Except.ok intent)).response.action_required = false)
    ∧ (intent.status ∈ ACTION_REQUIRED_STATUSES →
        (confirm_payment p (Except.ok intent)).response.kind
            = TransactionKind.ACTION_TO_CONFIRM
        ∧ (confirm_payment p (Except.ok intent)).response.action_required = true) := by
  obtain ⟨hkind, hsucc, har, _, _, _, _, hcall, _, _⟩ := confirm_payment_live p intent h
  refine ⟨hcall, hsucc, fun hs => ?_, fun hs => ?_, fun hs => ?_, fun hs => ?_⟩
  · rw [hs] at hkind har
    exact ⟨hkind, har⟩
  · rw [hs] at hkind har
    exact ⟨hkind, har⟩
  · rw [hs] at hkind har
    exact ⟨hkind, har⟩
  · have hs' : intent.status = IntentStatus.requiresAction
        ∨ intent.status = IntentStatus.requiresConfirmation := by
      simpa [ACTION_REQUIRED_STATUSES] using hs
    rcases hs' with hs' | hs' <;> rw [hs'] at hkind har <;> exact ⟨hkind, har⟩

def exIntentProcessing : PaymentIntent :=
  { id := "pi_1"
    client_secret := some "sec"
    amount := 1000
    currency := "USD"
    status := IntentStatus.processing
    last_response := some "raw" }

/-- Witness for C3 at a concrete processing-status intent. -/
theorem confirm_status_mapping_witness :
    (confirm_payment exPaymentFresh (Except.ok exIntentProcessing)).response.kind
      = TransactionKind.PENDING :=
  ((confirm_status_mapping exPaymentFresh exIntentProcessing rfl).2.2.2.2.1 rfl).1

/-! ### C5: confirm retrieval error -/

/-- C5: when retrieval raises a gateway error, confirm returns (not raises) a
failed `AUTH` response with empty transaction id, the gateway's message, and
the payment's own total and currency. -/
theorem confirm_gateway_error (p : PaymentRecord) (e : StripeError)
    (h : lastProcessedTransaction p.transactions = none) :
    (confirm_payment p (Except.error e)).response.is_success = false
    ∧ (confirm_payment p (Except.error e)).response.kind = TransactionKind.AUTH
    ∧ (confirm_payment p (Except.error e)).response.action_required = false
    ∧ (confirm_payment p (Except.error e)).response.transaction_id = ""
    ∧ (confirm_payment p (Except.error e)).response.error = some e.message
    ∧ (confirm_payment p (Except.error e)).response.amount = p.total
    ∧ (confirm_payment p (Except.error e)).response.currency = p.currency := by
  unfold confirm_payment
  rw [h]
  exact ⟨rfl, rfl, rfl, rfl, rfl, rfl, rfl⟩

/-- Witness for C5 at a concrete gateway error. -/
theorem confirm_gateway_error_witness :
    (confirm_payment exPaymentFresh
        (Except.error { message := "stripe-error" })).response.error
      = some "stripe-error" :=
  (confirm_gateway_error exPaymentFresh { message := "stripe-error" } rfl).2.2.2.2.1

/-! ### C6: process capture method and response shape -/

/-- C6: `process_payment` invokes the gateway with capture method
"automatic" when auto-capture is on and "manual" when off; a successful
response is `ACTION_TO_CONFIRM` and action-required carrying the client
secret; a gateway failure yields a failed action-required response with empty
transaction id, the gateway's message, no raw response and a null secret in
the payload. -/
theorem process_payment_spec (auto_capture : Bool) (p : PaymentRecord)
    (create : String → Except StripeError PaymentIntent) :
    (process_payment auto_capture p create).called_capture_method
        = (if auto_capture then AUTOMATIC_CAPTURE_METHOD else MANUAL_CAPTURE_METHOD)
    ∧ (∀ intent,
        create (if auto_capture then AUTOMATIC_CAPTURE_METHOD else MANUAL_CAPTURE_METHOD)
            = Except.ok intent →
        (process_payment auto_capture p create).result.response.kind
            = TransactionKind.ACTION_TO_CONFIRM
        ∧ (process_payment auto_capture p create).result.response.is_success = true
        ∧ (process_payment auto_capture p create).result.response.action_required = true
        ∧ (process_payment auto_capture p create).result.response.action_required_data
            = some intent.client_secret)
    ∧ (∀ e,
        create (if auto_capture then AUTOMATIC_CAPTURE_METHOD else MANUAL_CAPTURE_METHOD)
            = Except.error e →
        (process_payment auto_capture p create).result.response.kind
            = TransactionKind.ACTION_TO_CONFIRM
        ∧ (process_payment auto_capture p create).result.response.is_success = false
        ∧ (process_payment auto_capture p create).result.response.action_required = true
        ∧ (process_payment auto_capture p create).result.response.transaction_id = ""
        ∧ (process_payment auto_capture p create).result.response.error = some e.message
        ∧ (process_payment auto_capture p create).result.response.raw_response = none
        ∧ (process_payment auto_capture p create).result.response.action_required_data
            = some none) := by
  unfold process_payment
  cases hc : create (if auto_capture then AUTOMATIC_CAPTURE_METHOD else MANUAL_CAPTURE_METHOD)
  case ok intent =>
    simp only [hc]
    refine ⟨?_, fun intent' h' => ?_, fun e h' => ?_⟩
    · trivial
    · cases h'
      simp
    · exact Except.noConfusion h'
  case error e =>
    simp only [hc]
    refine ⟨?_, fun intent' h' => ?_, fun e' h' => ?_⟩
    · trivial
    · exact Except.noConfusion h'
    · cases h'
      simp

def exIntentCreated : PaymentIntent :=
  { id := "pi_2"
    client_secret := some "client-secret"
    amount := 1000
    currency := "USD"
    status := IntentStatus.requiresAction
    last_response := some "raw2" }

/-- Witness for C6: auto-capture on, gateway succeeds, the secret is carried
in the action-required payload. -/
theorem process_payment_spec_witness :
    (process_payment true exPaymentFresh
        fun _ => Except.ok exIntentCreated).result.response.action_required_data
      = some (some "client-secret") :=
  ((process_payment_spec true exPaymentFresh
      fun _ => Except.ok exIntentCreated).2.1 exIntentCreated rfl).2.2.2

end Saleor
